import Mathlib

/-!
Shallow embedding of the MCP tool-orchestration core of the
`iltc-mcp-apifactory` repository (insurance policy assistant).

Embedded modules:
* `app/mcp/protocol.py`      — data model (ToolType, ToolCall, ToolResponse, …)
* `app/mcp/tools/intent_detection.py`   — `IntentDetectionTool.run`
* `app/mcp/tools/vector_search.py`      — `VectorSearchTool.run`
* `app/mcp/tools/action_recommender.py` — `ActionRecommenderTool.run`
* `app/mcp/tools/user_policy.py`        — `UserPolicyTool.run`, `get_coverage_details`
* `app/mcp/resources/loader.py`         — `ResourceLoader.get_user_policy_details`
* `app/mcp/controller.py`    — `MCPController` (sessions, `process_request`,
  `_format_policy_data`)
* `app/mcp/api.py`           — the `/mcp/query` endpoint (`mcp_query`)

Modelling conventions:
* External collaborators (the vector index, the intent-classification HTTP
  service, the generation engine, the policy-store JSON file) are oracles
  bundled in an `Env`; a collaborator call that can raise is modelled with
  `Except String`.
* Python `uuid.uuid4()` session identifiers are modelled by a fresh-id
  counter (`CState.nextId`); freshness of a uuid against existing keys is a
  hypothesis where a theorem needs it.
* JSON objects with unknown keys (policy records, their sections, coverage
  entries) are modelled as ordered association lists `List (String × String)`.
* Python dict/str truthiness (`if x:`) is modelled explicitly
  (`Option`-emptiness, `""`-emptiness, all-sections-absent records).
* Tool parameters (`Dict[str, Any]`) are association lists of `PVal`
  (string / nat / None).  Keyword binding of `tool.run(**params)` is
  modelled per tool; an ill-typed parameter value is modelled as a binding
  error (in Python the same values surface as an error-carrying or empty
  tool result through a later exception or failed comparison; no claim
  distinguishes the two shapes).
* Python type annotations are not enforced at runtime boundaries in this
  embedding; the data actually passed by the code is what is modelled.
-/

/-- Python substring test `needle in hay` (on Lean strings). -/
def strContains (hay needle : String) : Bool :=
  decide (needle.toList <:+: hay.toList)

/-- Python `str.lower()` (character-wise lowercasing; the strings in play
are ASCII). -/
def pyLower (s : String) : String := (s.toList.map Char.toLower).asString

/-- Python `str.strip()` (drop leading and trailing whitespace). -/
def pyStrip (s : String) : String :=
  (((s.toList.dropWhile Char.isWhitespace).reverse.dropWhile
    Char.isWhitespace).reverse).asString

/-- Lookup in an ordered association list (first binding wins), i.e. Python
`d.get(k)` returning `None` when the key is absent. -/
def getS (d : List (String × String)) (k : String) : Option String :=
  (d.find? (fun kv => kv.1 == k)).map (·.2)

/-- Python truthiness of an optional string (`None` and `""` are falsy). -/
def optTruthy : Option String → Bool
  | none => false
  | some s => !(s == "")

/-- Python `x or default` for an optional string (`None`/`""` fall through). -/
def pyOr (v : Option String) (d : String) : String :=
  match v with
  | some s => if s == "" then d else s
  | none => d

/-! ### `app/mcp/protocol.py` — data model -/

/-- `ToolType` (protocol.py): closed enumeration of tool discriminants. -/
inductive ToolType
  | vector_search
  | intent_detection
  | policy_lookup
  | faq_lookup
  | coverage_comparison
  | action_recommender
  | user_policy
deriving DecidableEq, Repr

/-- A parameter value inside a `ToolCall.parameters` map (`Dict[str, Any]`,
restricted to the value kinds the code ever passes or reads). -/
inductive PVal
  | s (v : String)
  | n (v : Nat)
  | null
deriving DecidableEq, Repr

/-- `ToolCall.parameters : Dict[str, Any]` as an ordered association list. -/
abbrev Params := List (String × PVal)

/-- `ToolCall` (protocol.py). -/
structure ToolCall where
  tool_type : ToolType
  parameters : Params
deriving DecidableEq, Repr

/-- One `{role, content}` conversation turn. -/
structure Turn where
  role : String
  content : String
deriving DecidableEq, Repr

/-- A retrieved context item: a dict with `source` / `doc_type` / `text`
keys (the first two may be absent — the controller reads them with
`.get(..., "Unknown")`). -/
structure ContextItem where
  source : Option String
  doc_type : Option String
  text : String
deriving DecidableEq, Repr

/-- A detected-intent entry `{intent, route, score}`. -/
structure IntentEntry where
  intent : Option String
  route : Option String
  score : ℚ
deriving DecidableEq, Repr

/-- The null sentinel intent `{"intent": None, "route": None, "score": 0.0}`. -/
def sentinelIntent : IntentEntry := ⟨none, none, 0⟩

/-- A citation `{name, type}` extracted from context items. -/
structure Source where
  name : String
  type : String
deriving DecidableEq, Repr

/-- A policy record / filtered policy view: a JSON object with the four
optional sections used by the code (`none` = key absent = `{}` filtered
away).  Sections are ordered association lists; each coverage entry is
itself an association list (the code reads it with `.get`). -/
structure PolicyData where
  policy_details : Option (List (String × String)) := none
  proposer_details : Option (List (String × String)) := none
  insured_details : Option (List (String × String)) := none
  coverages : Option (List (List (String × String))) := none
deriving DecidableEq, Repr

/-- The empty dict `{}` as a `PolicyData`. -/
def emptyPolicyData : PolicyData := {}

/-- Python truthiness of a `PolicyData` dict (`if policy_data:`): true iff
at least one key is present. -/
def PolicyData.isTruthy (d : PolicyData) : Bool :=
  d.policy_details.isSome || d.proposer_details.isSome ||
    d.insured_details.isSome || d.coverages.isSome

/-- Return value of `UserPolicyTool.run`: the dict
`{"result": ..., "error": ...}` (both keys always present). -/
structure UPResult where
  result : PolicyData
  error : Option String
deriving DecidableEq, Repr

/-- Payload shapes produced by `UserPolicyTool.get_coverage_details`. -/
inductive CovPayload
  | emptyP
  | coveragesP (l : List (List (String × String)))
  | coverageP (c : List (String × String))
deriving DecidableEq, Repr

/-- Return value of `UserPolicyTool.get_coverage_details`. -/
structure CovResult where
  result : CovPayload
  error : Option String
deriving DecidableEq, Repr

/-! ### `app/mcp/resources/loader.py` — `ResourceLoader.get_user_policy_details` -/

/-- Match by policy id: `policy_id == policy_details.get("policy_number") or
policy_id == policy_details.get("alternative_policy_number")` (guarded by
`if policy_id and (...)`). -/
def idMatch (policy_id : Option String) (r : PolicyData) : Bool :=
  match policy_id with
  | none => false
  | some pid =>
    if pid == "" then false
    else
      let pd := r.policy_details.getD []
      getS pd "policy_number" == some pid ||
        getS pd "alternative_policy_number" == some pid

/-- Match by product name: `product_name.lower() in
policy_details.get("product_name", "").lower()` (guarded by
`if product_name and ...`). -/
def prodMatch (product_name : Option String) (r : PolicyData) : Bool :=
  match product_name with
  | none => false
  | some p =>
    if p == "" then false
    else
      let pd := r.policy_details.getD []
      strContains (pyLower ((getS pd "product_name").getD "")) (pyLower p)

/-- Match by user name/email: `user_id.lower() in proposer_details.get("name",
"").lower() or user_id.lower() in proposer_details.get("email_id",
"").lower()` (guarded by `if user_id and (...)`). -/
def userMatch (user_id : Option String) (r : PolicyData) : Bool :=
  match user_id with
  | none => false
  | some u =>
    if u == "" then false
    else
      let props := r.proposer_details.getD []
      strContains (pyLower ((getS props "name").getD "")) (pyLower u) ||
        strContains (pyLower ((getS props "email_id").getD "")) (pyLower u)

/-- The per-record body of the loader's scan: the three criteria tested in
source order, any of which returns the current record. -/
def recordMatches (policy_id user_id product_name : Option String)
    (r : PolicyData) : Bool :=
  idMatch policy_id r || prodMatch product_name r || userMatch user_id r

/-- `ResourceLoader.get_user_policy_details` (loader.py): iterate the stored
records in storage order; inside each record test policy-id match, then
product-name match, then user match; return the first record any criterion
accepts; `none` models the `{}` returned when nothing matches (which also
covers the missing-file and exception paths, modelled as an empty store). -/
def get_user_policy_details (store : List PolicyData)
    (policy_id user_id product_name : Option String) : Option PolicyData :=
  match store with
  | [] => none
  | r :: rs =>
    if idMatch policy_id r then some r
    else if prodMatch product_name r then some r
    else if userMatch user_id r then some r
    else get_user_policy_details rs policy_id user_id product_name

/-- Modelled from the spec (§4.5), for comparison with the source's
`get_user_policy_details`: "policy-id exact match (including an alternate id
field) takes precedence, then product-name substring match, then
user-name/email substring match — across all stored records".  Each
criterion is exhausted over the whole store before the next is tried. -/
def specPrecedenceLookup (store : List PolicyData)
    (policy_id user_id product_name : Option String) : Option PolicyData :=
  (store.find? (idMatch policy_id)) <|>
    (store.find? (prodMatch product_name)) <|>
      (store.find? (userMatch user_id))

/-! ### `app/mcp/tools/user_policy.py` — `UserPolicyTool` -/

/-- The `query_type` filtering step of `UserPolicyTool.run`: `result = {}`
unless one of the five recognised `query_type` strings matches. -/
def filterByQueryType (query_type : PVal) (details : PolicyData) : PolicyData :=
  if query_type == .s "full" then details
  else if query_type == .s "coverage" then
    { emptyPolicyData with coverages := some (details.coverages.getD []) }
  else if query_type == .s "proposer" then
    { emptyPolicyData with proposer_details := some (details.proposer_details.getD []) }
  else if query_type == .s "policy" then
    { emptyPolicyData with policy_details := some (details.policy_details.getD []) }
  else if query_type == .s "insured" then
    { emptyPolicyData with insured_details := some (details.insured_details.getD []) }
  else emptyPolicyData

/-- `UserPolicyTool.run` (user_policy.py): look the record up through the
loader; `{}` (no match) yields `{"result": {}, "error": "No matching policy
found"}`; otherwise the record filtered by `query_type` with `error: None`. -/
def userPolicyRun (store : List PolicyData)
    (policy_id user_name product_name : Option String) (query_type : PVal) :
    UPResult :=
  match get_user_policy_details store policy_id user_name product_name with
  | none => ⟨emptyPolicyData, some "No matching policy found"⟩
  | some details => ⟨filterByQueryType query_type details, none⟩

/-- The Python test `"error" in policy_info` inside `get_coverage_details`:
key *presence*, not key truthiness.  `UserPolicyTool.run` returns a dict
that always contains the key `"error"`, so the test is constantly true. -/
def upResultHasErrorKey (_ : UPResult) : Bool := true

/-- `UserPolicyTool.get_coverage_details` (user_policy.py), embedded as
written: it first calls `run(policy_id=..., query_type="coverage")`, then
guards with `if not policy_info.get("result") or "error" in policy_info`. -/
def get_coverage_details (store : List PolicyData)
    (policy_id coverage_name : Option String) : CovResult :=
  let policy_info := userPolicyRun store policy_id none none (.s "coverage")
  if !policy_info.result.isTruthy || upResultHasErrorKey policy_info then
    ⟨.emptyP, some "Policy not found"⟩
  else
    let coverages := policy_info.result.coverages.getD []
    match coverage_name with
    | none => ⟨.coveragesP coverages, none⟩
    | some cn =>
      if cn == "" then ⟨.coveragesP coverages, none⟩
      else
        match coverages.find?
            (fun c => strContains (pyLower ((getS c "cover_name").getD "")) (pyLower cn)) with
        | some c => ⟨.coverageP c, none⟩
        | none =>
          ⟨.emptyP, some ("Coverage \x27" ++ cn ++ "\x27 not found in policy")⟩

/-! ### `app/mcp/tools/intent_detection.py` — `IntentDetectionTool.run` -/

/-- Outcome of the `requests.post` call to the intent-classification API:
either a transport-level failure (connection error, timeout, unparsable
body — everything the `except` catches) or a response with a status code
and a parsed JSON body. -/
inductive IntentOutcome
  | fail (msg : String)
  | resp (status : Nat) (body : List IntentEntry)
deriving Repr

/-- `IntentDetectionTool.run`: on status 200 with a non-empty body, sort by
score descending (Python `sorted(..., reverse=True)`, a stable descending
sort) and keep the first 3; every other path returns the null sentinel. -/
def intentRun (o : IntentOutcome) : List IntentEntry :=
  match o with
  | .fail _ => [sentinelIntent]
  | .resp status body =>
    if status == 200 && !body.isEmpty then
      (body.mergeSort (fun a b => decide (b.score ≤ a.score))).take 3
    else [sentinelIntent]

/-! ### `app/mcp/tools/action_recommender.py` — `ActionRecommenderTool` -/

/-- The `policy_types` keyword table, in source (insertion) order. -/
def policy_types : List (String × List String) :=
  [("travel", ["travel", "trip", "journey", "vacation", "holiday"]),
   ("health", ["health", "medical", "healthcare", "elevate", "standard"]),
   ("motor", ["auto", "car", "vehicle", "motor"]),
   ("home", ["home", "house", "property", "renters"])]

/-- `_extract_policy_type`: first policy type (in table order) one of whose
keywords occurs in the lowercased query; defaults to `"travel"`. -/
def extract_policy_type (query : String) : String :=
  let ql := pyLower query
  match policy_types.find? (fun p => p.2.any (fun kw => strContains ql kw)) with
  | some p => p.1
  | none => "travel"

/-- The `my_policy_keywords` list from `ActionRecommenderTool.run`. -/
def my_policy_keywords : List String :=
  ["my", "details", "policy", "number", "coverage", "plan", "insurance"]

/-- `user_query_likely`: any of the keywords occurs in the lowercased query. -/
def userQueryLikely (query : String) : Bool :=
  my_policy_keywords.any (fun kw => strContains (pyLower query) kw)

/-- `\w`, `/` and `-` — the character class of the policy-id capture group
`([\w\/\-]+)` (ASCII `\w`). -/
def isWordIdChar (c : Char) : Bool :=
  c.isAlphanum || c == '_' || c == '/' || c == '-'

/-- `\s` (ASCII whitespace, as far as the queries in play contain any). -/
def isSpaceChar (c : Char) : Bool := c.isWhitespace

/-- The tail `\s*[:#]?\s*([\w\/\-]+)` of the policy-id regex: skip spaces,
an optional `:` or `#`, more spaces, then capture a non-empty run of
id characters.  (No backtracking is needed across these pieces: the three
character classes are pairwise disjoint.) -/
def matchIdCapture (l : List Char) : Option String :=
  let l1 := l.dropWhile isSpaceChar
  let l2 := match l1 with
    | c :: rest => if c == ':' || c == '#' then rest else l1
    | [] => l1
  let l3 := l2.dropWhile isSpaceChar
  let cap := l3.takeWhile isWordIdChar
  if cap.isEmpty then none else some (String.mk cap)

/-- The part of the policy-id regex after the literal `"policy "`:
`(?:number|id)?` with Python's backtracking order — try `number`, then
`id`, then the empty alternative — each followed by `matchIdCapture`. -/
def matchAfterPolicy (l : List Char) : Option String :=
  (if l.take 6 = "number".toList then matchIdCapture (l.drop 6) else none) <|>
    (if l.take 2 = "id".toList then matchIdCapture (l.drop 2) else none) <|>
      matchIdCapture l

/-- `re.search(r"policy (?:number|id)?\s*[:#]?\s*([\w\/\-]+)", query.lower())`:
leftmost position where the whole pattern matches; the extracted group 1. -/
def searchPolicyId : List Char → Option String
  | [] => none
  | c :: cs =>
    if (c :: cs).take 7 = "policy ".toList then
      match matchAfterPolicy ((c :: cs).drop 7) with
      | some cap => some cap
      | none => searchPolicyId cs
    else searchPolicyId cs

/-- `re.search(r"coverage|benefit|cover", ql)` as substring tests (the
alternatives are plain literals). -/
def coverageQueryType (ql : String) : Bool :=
  strContains ql "coverage" || strContains ql "benefit" || strContains ql "cover"

/-- `re.search(r"my details|personal (info|details)|proposer", ql)` as
substring tests. -/
def proposerQueryType (ql : String) : Bool :=
  strContains ql "my details" || strContains ql "personal info" ||
    strContains ql "personal details" || strContains ql "proposer"

/-- A recommendation entry `{"tool_type": ..., "parameters": ...}` returned
by `ActionRecommenderTool.run` (converted to a `ToolCall` by the callers). -/
structure RecTool where
  tool_type : ToolType
  parameters : Params
deriving DecidableEq, Repr

/-- `ActionRecommenderTool.run` (action_recommender.py).  The body is pure
pattern matching and cannot raise, so the `except` fallback is dead code;
the embedding is the `try` body.  (The extracted `coverage_name` is computed
but never used by the source, and is omitted.) -/
def actionRecommenderRun (query : String) : List RecTool :=
  let ql := pyLower query
  let policy_type := extract_policy_type query
  let user_query_likely := userQueryLikely query
  let policy_id := searchPolicyId ql.toList
  let base : List RecTool :=
    if policy_id.isSome || user_query_likely then
      let query_type :=
        if coverageQueryType ql then "coverage"
        else if proposerQueryType ql then "proposer"
        else "full"
      [⟨.user_policy,
        [("policy_id", match policy_id with | some v => .s v | none => .null),
         ("query_type", .s query_type),
         ("product_name",
           if policy_type == "travel" || policy_type == "health" then .s policy_type
           else .null)]⟩]
    else []
  base ++ [⟨.vector_search, [("query", .s query), ("top_k", .n 3)]⟩]

/-! ### `app/mcp/tools/vector_search.py`, environment of collaborators -/

/-- Arguments of one `ChatbotService.generate_response` call as issued by the
controller (temperature is left at its default and not modelled). -/
structure GenArgs where
  query : String
  context : List ContextItem
  chat_history : List Turn
  system_prompt : String
deriving DecidableEq, Repr

/-- The external collaborators, as oracles:
* `vectorQuery` — `EmbeddingService.query_similar` (may raise);
* `intentApi` — the intent-classification HTTP call;
* `generate` — `ChatbotService.generate_response` (total: it catches every
  exception internally and returns an apology string);
* `policyStore` — the records of `user_details.json` in storage order (a
  missing or unreadable file is the empty store). -/
structure Env where
  vectorQuery : String → Nat → Except String (List ContextItem)
  intentApi : String → IntentOutcome
  generate : GenArgs → String
  policyStore : List PolicyData

/-- `VectorSearchTool.run` (vector_search.py): delegate to
`query_similar`; any exception is caught and yields `[]`. -/
def vectorSearchRun (env : Env) (query : String) (top_k : Nat) :
    List ContextItem :=
  match env.vectorQuery query top_k with
  | .ok l => l
  | .error _ => []

/-! ### `app/mcp/controller.py` — `_format_policy_data` -/

/-- Python `str.title()` restricted to the alphabetic/non-alphabetic
distinction: uppercase a letter that follows a non-letter (or starts the
string), lowercase every other letter. -/
def pyTitleAux : List Char → Bool → List Char
  | [], _ => []
  | c :: cs, prevAlpha =>
    (if c.isAlpha then (if prevAlpha then c.toLower else c.toUpper) else c) ::
      pyTitleAux cs c.isAlpha

/-- Python `str.title()`. -/
def pyTitle (s : String) : String := (pyTitleAux s.toList false).asString

/-- `key.replace('_', ' ').title()` — display form of a snake_case key. -/
def displayKey (k : String) : String :=
  pyTitle ((k.toList.map (fun c => if c == '_' then ' ' else c)).asString)

/-- One `- {Key}: {value}` line of a details section. -/
def fmtKV (kv : String × String) : String :=
  "- " ++ displayKey kv.1 ++ ": " ++ kv.2

/-- A details section: header line followed by one line per key. -/
def fmtSection (hdr : String) (d : List (String × String)) : List String :=
  hdr :: d.map fmtKV

/-- The four lines rendered for one coverage entry. -/
def fmtCoverage (c : List (String × String)) : List String :=
  ["\n- " ++ ((getS c "cover_name").getD "Unknown"),
   "  Benefits: " ++ ((getS c "benefits").getD "Not specified"),
   "  Sum Insured: " ++ ((getS c "sum_insured").getD "Not specified"),
   "  Deductibles: " ++ ((getS c "deductibles").getD "Not specified")]

/-- `MCPController._format_policy_data`: the four optional sections in fixed
order, joined with `"\n"`. -/
def format_policy_data (d : PolicyData) : String :=
  String.intercalate "\n"
    ((match d.policy_details with
      | some pd => fmtSection "POLICY DETAILS:" pd
      | none => []) ++
     (match d.proposer_details with
      | some pd => fmtSection "\nPROPOSER DETAILS:" pd
      | none => []) ++
     (match d.insured_details with
      | some pd => fmtSection "\nINSURED DETAILS:" pd
      | none => []) ++
     (match d.coverages with
      | some cs => "\nCOVERAGES:" :: (cs.map fmtCoverage).flatten
      | none => []))

/-! ### `app/mcp/controller.py` — tool registry and tool execution -/

/-- The value (`Any`) returned by `tool.run` for each of the four
registered tools. -/
inductive RunResultV
  | items (l : List ContextItem)
  | intents (l : List IntentEntry)
  | recs (l : List RecTool)
  | policy (r : UPResult)
deriving DecidableEq, Repr

/-- `ToolResponse` (protocol.py): as constructed by the controller —
success carries `result` with `error = None`; a caught exception carries
`result = None` and `error = str(e)`. -/
structure ToolResponse where
  tool_type : ToolType
  result : Option RunResultV
  error : Option String
deriving DecidableEq, Repr

/-- `MCPController.tools`: the four registered tool types. -/
def registered : ToolType → Bool
  | .intent_detection => true
  | .vector_search => true
  | .action_recommender => true
  | .user_policy => true
  | _ => false

/-- First value bound to a key in a parameters map (`params[k]`). -/
def getP (ps : Params) (k : String) : Option PVal :=
  (ps.find? (fun kv => kv.1 == k)).map (·.2)

/-- Keyword-argument check of `tool.run(**params)`: every supplied key must
be a parameter of the tool's signature. -/
def keysAllowed (ps : Params) (allowed : List String) : Bool :=
  (ps.map (·.1)).all (fun k => allowed.contains k)

/-- Read an optional string-or-None keyword argument (an integer value here
is modelled as a binding error; see the module comment). -/
def asOptStr (ps : Params) (k : String) : Except String (Option String) :=
  match getP ps k with
  | none => .ok none
  | some .null => .ok none
  | some (.s v) => .ok (some v)
  | some (.n _) => .error ("TypeError: " ++ k)

/-- Keyword binding for `IntentDetectionTool.run(query)` and
`ActionRecommenderTool.run(query)`. -/
def bindQuery (ps : Params) : Except String String :=
  if !keysAllowed ps ["query"] then .error "TypeError: unexpected keyword argument"
  else match getP ps "query" with
    | some (.s q) => .ok q
    | some _ => .error "TypeError: query"
    | none => .error "TypeError: missing required argument: query"

/-- Keyword binding for `VectorSearchTool.run(query, top_k=5,
filter_criteria=None)` (the filter is accepted and ignored by the body). -/
def bindVectorSearch (ps : Params) : Except String (String × Nat) :=
  if !keysAllowed ps ["query", "top_k", "filter_criteria"] then
    .error "TypeError: unexpected keyword argument"
  else match getP ps "query" with
    | some (.s q) =>
      (match getP ps "top_k" with
       | none => .ok (q, 5)
       | some (.n k) => .ok (q, k)
       | some _ => .error "TypeError: top_k")
    | some _ => .error "TypeError: query"
    | none => .error "TypeError: missing required argument: query"

/-- Bound arguments of `UserPolicyTool.run`. -/
structure UPArgs where
  policy_id : Option String := none
  user_name : Option String := none
  product_name : Option String := none
  query_type : PVal := .s "full"
deriving DecidableEq, Repr

/-- Keyword binding for `UserPolicyTool.run(policy_id=None, user_name=None,
product_name=None, query_type="full")`. -/
def bindUserPolicy (ps : Params) : Except String UPArgs :=
  if !keysAllowed ps ["policy_id", "user_name", "product_name", "query_type"] then
    .error "TypeError: unexpected keyword argument"
  else do
    let pid ← asOptStr ps "policy_id"
    let un ← asOptStr ps "user_name"
    let pn ← asOptStr ps "product_name"
    let qt := (getP ps "query_type").getD (.s "full")
    .ok ⟨pid, un, pn, qt⟩

/-- `tool.run(**tool_call.parameters)` for a registered tool type: keyword
binding followed by the tool body.  The four tool bodies catch their own
internal exceptions, so the only errors surfacing here are binding errors. -/
def runRegisteredTool (env : Env) (tc : ToolCall) : Except String RunResultV :=
  match tc.tool_type with
  | .intent_detection =>
    (bindQuery tc.parameters).map (fun q => .intents (intentRun (env.intentApi q)))
  | .vector_search =>
    (bindVectorSearch tc.parameters).map
      (fun a => .items (vectorSearchRun env a.1 a.2))
  | .action_recommender =>
    (bindQuery tc.parameters).map (fun q => .recs (actionRecommenderRun q))
  | .user_policy =>
    (bindUserPolicy tc.parameters).map
      (fun a => .policy (userPolicyRun env.policyStore a.policy_id a.user_name
        a.product_name a.query_type))
  | _ => .error "unregistered"

/-- The explicit/recommended tool-execution loop of `process_request`
(controller.py): a registered call yields one `ToolResponse` (error-wrapped
on failure); an unregistered `ToolType` is silently skipped. -/
def executeTools (env : Env) : List ToolCall → List ToolResponse
  | [] => []
  | tc :: rest =>
    if registered tc.tool_type then
      (match runRegisteredTool env tc with
       | .ok r => ⟨tc.tool_type, some r, none⟩
       | .error e => ⟨tc.tool_type, none, some e⟩) :: executeTools env rest
    else executeTools env rest

/-! ### `app/mcp/controller.py` — policy-context fusion, prompt, sources -/

/-- The product name read for the synthetic context item:
`policy_data['policy_details']['product_name']` when both keys exist. -/
def productNameOf (d : PolicyData) : Option String :=
  match d.policy_details with
  | none => none
  | some pd => getS pd "product_name"

/-- The synthetic context item built from a fused policy payload
(`policy_context` in `process_request`). -/
def policyContextItem (d : PolicyData) : ContextItem :=
  { source := some ("User Policy: " ++ pyOr (productNameOf d) "Personal Policy"),
    doc_type := some "User Policy Details",
    text := format_policy_data d }

/-- The fusion guard of `process_request`: a tool result qualifies when it
is a `USER_POLICY` response, its `result` is present with no `error`, the
result is a dict containing the key `"result"` (always true for this tool),
and the inner payload dict is truthy. -/
def qualifyPolicy (tr : ToolResponse) : Option PolicyData :=
  match tr.tool_type, tr.result, tr.error with
  | .user_policy, some (.policy upr), none =>
    if upr.result.isTruthy then some upr.result else none
  | _, _, _ => none

/-- The fusion loop: every qualifying `USER_POLICY` result inserts its
rendered payload at index 0 of the context list and raises the
`user_policy_source_added` flag. -/
def fuseTools : List ToolResponse → List ContextItem × Bool → List ContextItem × Bool
  | [], acc => acc
  | tr :: rest, (ctx, flag) =>
    match qualifyPolicy tr with
    | some pd => fuseTools rest (policyContextItem pd :: ctx, true)
    | none => fuseTools rest (ctx, flag)

/-- The fixed base system prompt of `process_request` (controller.py). -/
def basePrompt : String :=
  "You are an insurance policy assistant. Your task is to answer questions about insurance policies based on the provided context.\n\nIMPORTANT: When user policy information is available in the context (marked as \"User Policy\"), prioritize using that information to answer questions about the user's specific policy. The context will include detailed information about policy details, coverages, and personal information.\n\nUse only the information from the policy documents and user policy data when answering. If the information needed to answer is not available in the context,\nstate that you don't have enough information to provide an accurate answer rather than making up information.\n\nDo not include citations or references to specific documents in your response as the source information will be displayed separately."

/-- Intent-based prompt enhancement: the primary detected intent (when its
`intent` field is truthy) and the truthy secondary intents. -/
def buildPrompt (detected : List IntentEntry) : String :=
  match detected with
  | [] => basePrompt
  | primary :: rest =>
    let p1 :=
      match primary.intent with
      | some s =>
        if s == "" then basePrompt
        else basePrompt ++
          "\n\nI detected that the user's primary intent may be: " ++ s ++
            ". Consider this when providing your response."
      | none => basePrompt
    let secondary := rest.filterMap (fun e =>
      match e.intent with
      | some s => if s == "" then none else some s
      | none => none)
    if secondary.isEmpty then p1
    else p1 ++ "\n\nAlternative intents to consider: " ++
      String.intercalate ", " secondary ++ "."

/-- The synthetic citation prepended when policy data was fused. -/
def userPolicySource : Source := ⟨"User Policy", "Personal Policy Details"⟩

/-- Source extraction: one `{name, type}` per context item (with
`"Unknown"` defaults), de-duplicated in first-seen order. -/
def extractSources (ctx : List ContextItem) : List Source :=
  ctx.foldl (fun acc item =>
    let s : Source := ⟨item.source.getD "Unknown", item.doc_type.getD "Unknown"⟩
    if acc.contains s then acc else acc ++ [s]) []

/-- Append the synthetic user-policy source at position 0 when the fusion
flag is set — unless an identical `(name, type)` pair is already present,
in which case the list is left as is. -/
def finalSources (ctx : List ContextItem) (user_policy_source_added : Bool) :
    List Source :=
  let sources := extractSources ctx
  if user_policy_source_added then
    if sources.contains userPolicySource then sources
    else userPolicySource :: sources
  else sources

/-! ### `app/mcp/controller.py` — sessions and `process_request` -/

/-- `MCPSession` (protocol.py); the unused auxiliary `context` map is
omitted. -/
structure MCPSession where
  session_id : Nat
  history : List Turn
deriving DecidableEq, Repr

/-- The mutable state of an `MCPController`: the `sessions` dict (insertion
order preserved) plus the fresh-uuid counter. -/
structure CState where
  nextId : Nat
  sessions : List (Nat × MCPSession)
deriving DecidableEq, Repr

/-- `self.sessions[sid]` as an optional lookup. -/
def lookupSession (st : CState) (sid : Nat) : Option MCPSession :=
  (st.sessions.find? (fun kv => kv.1 == sid)).map (·.2)

/-- `MCPController.create_session`: mint a fresh id, store an
empty-history session under it, and return the id. -/
def create_session (st : CState) : Nat × CState :=
  (st.nextId,
   ⟨st.nextId + 1, st.sessions ++ [(st.nextId, ⟨st.nextId, []⟩)]⟩)

/-- Session resolution: reuse a known id, otherwise (absent or unknown id)
create a fresh session. -/
def resolveSession (st : CState) (sid? : Option Nat) : Nat × CState :=
  match sid? with
  | none => create_session st
  | some s => if (lookupSession st s).isSome then (s, st) else create_session st

/-- In-place mutation of one stored session. -/
def updateSession (st : CState) (sid : Nat) (f : MCPSession → MCPSession) :
    CState :=
  { st with
    sessions := st.sessions.map (fun kv => if kv.1 == sid then (kv.1, f kv.2) else kv) }

/-- The session-history update of `process_request`: append the
`{user, query}` turn and then the `{assistant, answer}` turn. -/
def appendTurns (st : CState) (sid : Nat) (query answer : String) : CState :=
  updateSession st sid (fun s =>
    { s with history := s.history ++ [⟨"user", query⟩, ⟨"assistant", answer⟩] })

/-- `MCPRequest` (protocol.py); the unused `context` field is omitted. -/
structure MCPRequest where
  user_query : String
  history : Option (List Turn)
  tools : Option (List ToolCall)
deriving DecidableEq, Repr

/-- The keyword arguments the controller passes to `MCPResponse(...)` at the
end of `process_request` (controller.py).  This is *not* a successfully
constructed `MCPResponse`: the pydantic model (protocol.py) declares
`detected_intent : Optional[Dict[str, Any]]`, while the controller always
passes a non-empty *list* of intent dicts, so the constructor raises a
`ValidationError` — see `mcpResponseValidation`. -/
structure MCPResponseArgs where
  response : String
  sources : List Source
  tool_results : List ToolResponse
  detected_intent : List IntentEntry
deriving DecidableEq, Repr

/-- `str(e)` stand-in for the pydantic `ValidationError` raised by
`MCPResponse(...)` when `detected_intent` receives a list where the model
annotation says `Optional[Dict[str, Any]]`.  (The precise message text is
pydantic-version-dependent; no property depends on it.) -/
def detectedIntentValidationError : String :=
  "1 validation error for MCPResponse: detected_intent is not a valid dict"

/-- Pydantic validation of the `MCPResponse(...)` construction: a non-empty
list bound to the `Optional[Dict[str, Any]]` field `detected_intent` fails
dict validation (in pydantic v1 an *empty* list coerces to `{}`; the
controller never passes one, so that corner is unreachable either way). -/
def mcpResponseValidation (a : MCPResponseArgs) :
    Except String MCPResponseArgs :=
  if a.detected_intent.isEmpty then .ok a
  else .error detectedIntentValidationError

/-- The working tool-call list after step 2 of `process_request`: when the
caller supplied no tools (`None` or `[]` — both falsy), the action
recommender's output is converted to `ToolCall`s.  (The recommender body
cannot raise, so the logged-and-ignored failure path is dead.) -/
def workingToolsOf (req : MCPRequest) : List ToolCall :=
  match req.tools with
  | none => (actionRecommenderRun req.user_query).map (fun r => ⟨r.tool_type, r.parameters⟩)
  | some [] => (actionRecommenderRun req.user_query).map (fun r => ⟨r.tool_type, r.parameters⟩)
  | some ts => ts

/-- The tool responses of step 4 of `process_request`. -/
def toolResultsOf (env : Env) (req : MCPRequest) : List ToolResponse :=
  executeTools env (workingToolsOf req)

/-- The intent list after the controller's own guard (a non-list or empty
result is replaced by the sentinel; the tool itself already never returns an
empty list). -/
def detectedOf (env : Env) (req : MCPRequest) : List IntentEntry :=
  let raw := intentRun (env.intentApi req.user_query)
  if raw.isEmpty then [sentinelIntent] else raw

/-- The context list after the mandatory vector search (step 5) and the
policy-context fusion (step 6). -/
def contextOf (env : Env) (req : MCPRequest) : List ContextItem :=
  (fuseTools (toolResultsOf env req) (vectorSearchRun env req.user_query 3, false)).1

/-- The `user_policy_source_added` flag after fusion. -/
def upAddedOf (env : Env) (req : MCPRequest) : Bool :=
  (fuseTools (toolResultsOf env req) (vectorSearchRun env req.user_query 3, false)).2

/-- The exact arguments `process_request` passes to
`ChatbotService.generate_response`. -/
def genArgsOf (env : Env) (req : MCPRequest) : GenArgs :=
  { query := req.user_query,
    context := contextOf env req,
    chat_history := req.history.getD [],
    system_prompt := buildPrompt (detectedOf env req) }

/-- The `sources` local computed by `process_request` (controller.py,
source extraction plus the conditional synthetic front insertion).  It is a
local only: the response that would carry it is never constructed — see
`mcpResponseValidation`. -/
def sourcesOf (env : Env) (req : MCPRequest) : List Source :=
  finalSources (contextOf env req) (upAddedOf env req)

/-- The locals `process_request` computes and then passes to
`MCPResponse(...)`: the generated answer, the extracted sources, the tool
results, and the detected-intent list. -/
def responseArgsOf (env : Env) (req : MCPRequest) : MCPResponseArgs :=
  { response := env.generate (genArgsOf env req),
    sources := sourcesOf env req,
    tool_results := toolResultsOf env req,
    detected_intent := detectedOf env req }

/-- `MCPController.process_request` (controller.py): resolve the session,
run the pipeline (tool execution, mandatory vector search, fusion,
generation), append the two turns to the resolved session — these side
effects all complete — and then execute `return MCPResponse(...)`, whose
pydantic validation raises on every reachable input (the `detected_intent`
list is never empty).  The first component is that final outcome: the
would-be response on the (unreachable) success path, the `ValidationError`
otherwise. -/
def process_request (env : Env) (st : CState) (req : MCPRequest)
    (session_id : Option Nat) : Except String MCPResponseArgs × CState :=
  let (sid, st1) := resolveSession st session_id
  let args := responseArgsOf env req
  (mcpResponseValidation args, appendTurns st1 sid req.user_query args.response)

/-! ### `app/mcp/api.py` — the `POST /mcp/query` endpoint -/

/-- `MCPQueryRequest` (api.py); `temperature` is accepted and unused. -/
structure MCPQueryRequest where
  question : String
  chat_history : Option (List Turn) := some []
  session_id : Option Nat := none
  tools : Option (List ToolCall) := none
deriving DecidableEq, Repr

/-- `MCPQueryResponse` (api.py): the JSON body of a successful reply.
`tool_results` is `None` when the controller produced no tool results. -/
structure MCPQueryResponse where
  answer : String
  sources : List Source
  session_id : Nat
  detected_intent : List IntentEntry
  tool_results : Option (List ToolResponse)
deriving DecidableEq, Repr

/-- Outcome of one HTTP call: a successful JSON body, or an
`HTTPException` with a status code and detail string. -/
inductive HttpResult
  | ok (r : MCPQueryResponse)
  | httpError (status : Nat) (detail : String)
deriving DecidableEq, Repr

/-- The detail string of the error the endpoint raises for an empty
question.  The inner `HTTPException(400, "Question cannot be empty")` is an
`Exception` and is therefore caught by the endpoint's own
`except Exception` handler, which re-raises it as a 500 whose detail wraps
`str(e)` (`"{status_code}: {detail}"`). -/
def emptyQuestionDetail : String :=
  "Error processing query: 400: Question cannot be empty"

/-- `mcp_query` (api.py): validate the question, build the `MCPRequest`,
run the controller, and assemble the JSON reply.  The success arm embeds
api.py lines 69-88 — including the reply `session_id` computed as
`request.session_id or mcp_controller.create_session()` — but is dead code
at runtime: `process_request` always raises the `ValidationError`, which
the endpoint's own `except Exception` converts into HTTP 500 (the session
mutations performed before the raise persist). -/
def mcp_query (env : Env) (st : CState) (req : MCPQueryRequest) :
    HttpResult × CState :=
  if (pyStrip req.question).isEmpty then
    (.httpError 500 emptyQuestionDetail, st)
  else
    let mreq : MCPRequest :=
      { user_query := req.question, history := req.chat_history, tools := req.tools }
    let (result, st1) := process_request env st mreq req.session_id
    match result with
    | .ok resp =>
      let (sidOut, st2) :=
        match req.session_id with
        | some s => (s, st1)
        | none => create_session st1
      (.ok
        { answer := resp.response,
          sources := resp.sources,
          session_id := sidOut,
          detected_intent := resp.detected_intent,
          tool_results :=
            if resp.tool_results.isEmpty then none else some resp.tool_results },
       st2)
    | .error e => (.httpError 500 ("Error processing query: " ++ e), st1)

/-! ## Shared fixtures and helper lemmas -/

/-- A trivial environment: empty vector index, unreachable intent service,
constant generation, empty policy store. -/
def env0 : Env :=
  { vectorQuery := fun _ _ => .ok [],
    intentApi := fun _ => .fail "connection refused",
    generate := fun _ => "answer0",
    policyStore := [] }

/-- The initial controller state (no sessions). -/
def st0 : CState := ⟨0, []⟩

/-- A plain request with no caller-supplied history or tools. -/
def req0 : MCPRequest := ⟨"q0", none, none⟩

theorem fuseTools_context_suffix (trs : List ToolResponse) :
    ∀ ctx flag, ∃ pre, (fuseTools trs (ctx, flag)).1 = pre ++ ctx := by
  induction trs with
  | nil => exact fun ctx flag => ⟨[], rfl⟩
  | cons tr rest ih =>
    intro ctx flag
    cases hq : qualifyPolicy tr with
    | some pd =>
      simp only [fuseTools, hq]
      obtain ⟨pre, hpre⟩ := ih (policyContextItem pd :: ctx) true
      exact ⟨pre ++ [policyContextItem pd], by simp [hpre]⟩
    | none => simp only [fuseTools, hq]; exact ih ctx flag

theorem fuseTools_no_qual (trs : List ToolResponse)
    (h : ∀ tr ∈ trs, qualifyPolicy tr = none) :
    ∀ acc, fuseTools trs acc = acc := by
  induction trs with
  | nil => intro acc; rfl
  | cons tr rest ih =>
    intro acc
    obtain ⟨ctx, flag⟩ := acc
    simp only [fuseTools, h tr (by simp)]
    exact ih (fun tr' h' => h tr' (by simp [h'])) (ctx, flag)

theorem fuseTools_qual (trs : List ToolResponse) :
    ∀ ctx flag, (∃ tr ∈ trs, (qualifyPolicy tr).isSome) →
      (fuseTools trs (ctx, flag)).2 = true ∧
      ∃ tr ∈ trs, ∃ pd, qualifyPolicy tr = some pd ∧
        (fuseTools trs (ctx, flag)).1.head? = some (policyContextItem pd) := by
  induction trs with
  | nil => rintro ctx flag ⟨tr, h, -⟩; exact absurd h (by simp)
  | cons tr rest ih =>
    rintro ctx flag ⟨tr', htr', hsome⟩
    cases hq : qualifyPolicy tr with
    | some pd =>
      simp only [fuseTools, hq]
      by_cases hrest : ∃ t ∈ rest, (qualifyPolicy t).isSome
      · obtain ⟨hflag, t, ht, pd', hpd', hhead⟩ :=
          ih (policyContextItem pd :: ctx) true hrest
        exact ⟨hflag, t, by simp [ht], pd', hpd', hhead⟩
      · have hnone : ∀ t ∈ rest, qualifyPolicy t = none := by
          intro t ht
          by_contra hne
          exact hrest ⟨t, ht, Option.isSome_iff_ne_none.mpr hne⟩
        rw [fuseTools_no_qual rest hnone]
        exact ⟨rfl, tr, by simp, pd, hq, rfl⟩
    | none =>
      simp only [fuseTools, hq]
      have hmem : tr' ∈ rest := by
        rcases List.mem_cons.mp htr' with h | h
        · rw [h, hq] at hsome; simp at hsome
        · exact h
      obtain ⟨hflag, t, ht, pd', hpd', hhead⟩ := ih ctx flag ⟨tr', hmem, hsome⟩
      exact ⟨hflag, t, by simp [ht], pd', hpd', hhead⟩

theorem executeTools_append (env : Env) (l₁ l₂ : List ToolCall) :
    executeTools env (l₁ ++ l₂) = executeTools env l₁ ++ executeTools env l₂ := by
  induction l₁ with
  | nil => rfl
  | cons tc rest ih =>
    simp only [List.cons_append, executeTools]
    by_cases h : registered tc.tool_type
    · simp [h, ih]
    · simp [h, ih]

theorem intentRun_core (o : IntentOutcome) :
    intentRun o ≠ [] ∧ (intentRun o).length ≤ 3 ∧
    (intentRun o).Pairwise (fun a b => b.score ≤ a.score) := by
  have sortedDesc : ∀ body : List IntentEntry,
      ((body.mergeSort (fun a b => decide (b.score ≤ a.score))).take 3).Pairwise
        (fun a b => b.score ≤ a.score) := by
    intro body
    have hs := @List.sorted_mergeSort IntentEntry
      (fun a b : IntentEntry => decide (b.score ≤ a.score))
      (fun a b c hab hbc => by
        simp only [decide_eq_true_eq] at *
        exact le_trans hbc hab)
      (fun a b => by
        rcases le_total a.score b.score with h | h <;> simp [h])
      body
    have hp : (body.mergeSort (fun a b => decide (b.score ≤ a.score))).Pairwise
        (fun a b => b.score ≤ a.score) :=
      hs.imp (fun h => by simpa using h)
    exact hp.sublist (List.take_sublist 3 _)
  cases o with
  | fail m => refine ⟨by simp [intentRun], by simp [intentRun], by simp [intentRun]⟩
  | resp status body =>
    by_cases hc : (status == 200 && !body.isEmpty) = true
    · refine ⟨?_, ?_, ?_⟩
      · simp only [intentRun, hc, if_true]
        have hlen : (body.mergeSort (fun a b => decide (b.score ≤ a.score))).length =
            body.length := List.length_mergeSort body
        have hbody : body ≠ [] := by
          have h2 := hc
          simp only [Bool.and_eq_true] at h2
          simpa using h2.2
        intro habs
        have : min 3 body.length = 0 := by
          simpa [List.length_take, hlen] using congrArg List.length habs
        have : body.length = 0 := by omega
        exact hbody (List.length_eq_zero.mp this)
      · simp only [intentRun, hc, if_true, List.length_take]
        omega
      · simp only [intentRun, hc, if_true]
        exact sortedDesc body
    · refine ⟨by simp [intentRun, hc], by simp [intentRun, hc], by simp [intentRun, hc]⟩

theorem detectedOf_eq_intentRun (env : Env) (req : MCPRequest) :
    detectedOf env req = intentRun (env.intentApi req.user_query) := by
  have hne := (intentRun_core (env.intentApi req.user_query)).1
  simp only [detectedOf]
  rw [if_neg]
  simpa [List.isEmpty_iff] using hne

theorem detectedOf_ne_nil (env : Env) (req : MCPRequest) :
    detectedOf env req ≠ [] := by
  rw [detectedOf_eq_intentRun]
  exact (intentRun_core _).1

/-- `MCPResponse(...)` raises on every request that reaches it: the
`detected_intent` argument is the controller's intent list, which is never
empty, and the model field is annotated `Optional[Dict[str, Any]]`. -/
theorem process_request_raises (env : Env) (st : CState) (req : MCPRequest)
    (sid : Option Nat) :
    (process_request env st req sid).1 = .error detectedIntentValidationError := by
  have h : (detectedOf env req).isEmpty = false := by
    cases hd : detectedOf env req with
    | nil => exact absurd hd (detectedOf_ne_nil env req)
    | cons a t => rfl
  show mcpResponseValidation (responseArgsOf env req) = _
  simp only [mcpResponseValidation, responseArgsOf]
  rw [if_neg (by simp [h])]

/-! ## Claim C1 — session history and generation -/

/-- A first request: query `"q1"`, no caller history, no caller tools. -/
def reqC1a : MCPRequest := ⟨"q1", none, none⟩

/-- A second request with the same shape, to be processed with the session
id minted for the first request. -/
def reqC1b : MCPRequest := ⟨"q2", none, none⟩

/-- C1, counterexample.  Two sequential requests with the same session id
(the first request mints session 0; the second is processed with
`session_id = 0`): the stored session holds the first request's
{user, assistant} turns, yet the second request's generation call receives
`[]` as `chat_history` — not those turns.  The claim, as stated, is false. -/
theorem C1_counterexample :
    (lookupSession (process_request env0 st0 reqC1a none).2 0).map (·.history) =
      some [⟨"user", "q1"⟩, ⟨"assistant", "answer0"⟩] ∧
    (genArgsOf env0 reqC1b).chat_history = [] ∧
    ([] : List Turn) ≠ [⟨"user", "q1"⟩, ⟨"assistant", "answer0"⟩] := by
  refine ⟨by rfl, by rfl, by simp⟩

/-- C1, amended.  The controller passes only the caller-supplied
`request.history` (defaulting to `[]`) to the Generation Engine; the stored
session's turns are never read back — indeed the whole pipeline outcome
(the `MCPResponse(...)` construction result) is independent of the session
store and of the supplied session id. -/
theorem C1_amended_generation_history (env : Env) (req : MCPRequest) :
    (genArgsOf env req).chat_history = req.history.getD [] ∧
    ∀ st st' sid sid',
      (process_request env st req sid).1 = (process_request env st' req sid').1 := by
  exact ⟨rfl, fun _ _ _ _ => rfl⟩

/-! ## Claim C3 — mandatory vector search -/

/-- C3.  The context list handed to generation always ends with the result
of the direct Vector Search call on the raw query with `top_k = 3` (policy
fusion only prepends items); and that call never raises — any failure of
the underlying vector index yields the empty result list. -/
theorem C3_mandatory_vector_search (env : Env) (req : MCPRequest) :
    (∃ pre, (genArgsOf env req).context = pre ++ vectorSearchRun env req.user_query 3) ∧
    (∀ e, env.vectorQuery req.user_query 3 = .error e →
      vectorSearchRun env req.user_query 3 = []) := by
  constructor
  · exact fuseTools_context_suffix (toolResultsOf env req)
      (vectorSearchRun env req.user_query 3) false
  · intro e he
    simp [vectorSearchRun, he]

/-- An environment whose vector index is down. -/
def envVecFail : Env :=
  { vectorQuery := fun _ _ => .error "vector index down",
    intentApi := fun _ => .fail "connection refused",
    generate := fun _ => "answer0",
    policyStore := [] }

/-- C3, witness at a concrete failing environment. -/
theorem C3_witness :
    (∃ pre, (genArgsOf envVecFail req0).context =
      pre ++ vectorSearchRun envVecFail "q0" 3) ∧
    vectorSearchRun envVecFail "q0" 3 = [] :=
  ⟨(C3_mandatory_vector_search envVecFail req0).1,
   (C3_mandatory_vector_search envVecFail req0).2 "vector index down" rfl⟩

/-! ## Claim C5 — empty question handling -/

/-- C5.  An empty (or whitespace-only) question is rejected before any
pipeline work and no session is created (the state is returned untouched) —
but the rejection reaches the caller as HTTP 500, not as a client error:
the endpoint's own `except Exception` catches the 400 `HTTPException` and
re-raises it wrapped in a 500. -/
theorem C5_empty_question_500 (env : Env) (st : CState)
    (ch : Option (List Turn)) (sid : Option Nat) (tools : Option (List ToolCall)) :
    mcp_query env st ⟨"", ch, sid, tools⟩ = (.httpError 500 emptyQuestionDetail, st) := by
  rfl

/-! ## Claim C7 — policy-store lookup precedence -/

/-- A record matched only by product name in the C7 counterexample. -/
def recA : PolicyData :=
  { policy_details := some [("policy_number", "AAA"), ("product_name", "Travel Shield")] }

/-- A record matched by exact policy id in the C7 counterexample. -/
def recB : PolicyData :=
  { policy_details := some [("policy_number", "BBB"), ("product_name", "Other Plan")] }

/-- C7, counterexample.  With `policy_id = "BBB"` (an exact id match on the
second record) and `product_name = "travel"` (a substring match on the
first record), the code returns the *first* record in storage order — the
product-name match — while the claimed criteria precedence (policy id
first, across all records) selects the second.  The claim, as stated, is
false. -/
theorem C7_counterexample :
    get_user_policy_details [recA, recB] (some "BBB") none (some "travel") = some recA ∧
    specPrecedenceLookup [recA, recB] (some "BBB") none (some "travel") = some recB ∧
    recA ≠ recB := by
  refine ⟨by rfl, by rfl, by decide⟩

/-- C7, amended.  The scan is first-match-wins over *records* in storage
order: the returned record is the first one that any of the three criteria
accepts; the id → product-name → user-name precedence is only the test
order inside each record (it never reaches past the first matching record). -/
theorem C7_amended_first_record_wins (store : List PolicyData)
    (policy_id user_id product_name : Option String) :
    get_user_policy_details store policy_id user_id product_name =
      store.find? (recordMatches policy_id user_id product_name) := by
  induction store with
  | nil => rfl
  | cons r rs ih =>
    simp only [get_user_policy_details, List.find?, recordMatches]
    by_cases h1 : idMatch policy_id r
    · simp [h1]
    · by_cases h2 : prodMatch product_name r
      · simp [h1, h2]
      · by_cases h3 : userMatch user_id r
        · simp [h1, h2, h3]
        · simp [h1, h2, h3, ih, recordMatches]

/-! ## Claim C8 — coverage-detail lookup -/

/-- A stored record with policy id `POL123` and a coverage whose
`cover_name` contains `"trip"` case-insensitively. -/
def rec8 : PolicyData :=
  { policy_details := some [("policy_number", "POL123")],
    coverages := some [[("cover_name", "Trip Cancellation"), ("benefits", "Full refund")]] }

/-- C8.  `get_coverage_details` can never return a coverage entry: its
guard `if not policy_info.get("result") or "error" in policy_info` tests
for the *presence* of the `"error"` key, which `run` always includes, so
every call — including one with a matching policy id and a coverage name
that is a case-insensitive substring of a stored `cover_name` — returns
`{"result": {}, "error": "Policy not found"}`, contradicting the
operation's documented behaviour. -/
theorem C8_coverage_lookup_always_fails :
    (∀ (store : List PolicyData) (policy_id coverage_name : Option String),
      get_coverage_details store policy_id coverage_name =
        ⟨.emptyP, some "Policy not found"⟩) ∧
    get_coverage_details [rec8] (some "POL123") (some "trip") =
      ⟨.emptyP, some "Policy not found"⟩ ∧
    strContains (pyLower "Trip Cancellation") (pyLower "trip") = true := by
  refine ⟨fun store pid cn => ?_, by rfl, by decide⟩
  simp [get_coverage_details, upResultHasErrorKey]

/-! ## Claim C4 — intent detection -/

/-- C4.  The intent tool's contract holds in full: for every classifier
outcome the result is non-empty, of length at most 3, sorted by score
descending; a transport failure, a non-200 status, and a 200 with an empty
body each yield exactly the null sentinel; and the controller's
`detected_intent` local is exactly the tool's result — a detection failure
is absorbed into the sentinel, not propagated.  The claim's final clause
fails on the code, though: the pipeline aborts on *every* request,
classifier up or down, because the trailing `MCPResponse(...)` construction
raises the `detected_intent` ValidationError (protocol.py annotates the
field `Optional[Dict[str, Any]]` while the controller always passes a list;
api.py's own response model says `Optional[List[Dict[str, Any]]]`). -/
theorem C4_intent_detection (o : IntentOutcome) (env : Env) (st : CState)
    (req : MCPRequest) (sid : Option Nat) :
    intentRun o ≠ [] ∧
    (intentRun o).length ≤ 3 ∧
    (intentRun o).Pairwise (fun a b => b.score ≤ a.score) ∧
    (∀ m, o = .fail m → intentRun o = [sentinelIntent]) ∧
    (∀ status body, o = .resp status body → (status ≠ 200 ∨ body = []) →
      intentRun o = [sentinelIntent]) ∧
    detectedOf env req = intentRun (env.intentApi req.user_query) ∧
    (process_request env st req sid).1 = .error detectedIntentValidationError := by
  refine ⟨(intentRun_core o).1, (intentRun_core o).2.1, (intentRun_core o).2.2, ?_, ?_,
    detectedOf_eq_intentRun env req, process_request_raises env st req sid⟩
  · rintro m rfl; rfl
  · rintro status body rfl h
    rcases h with h | h
    · have h200 : (status == 200) = false := beq_eq_false_iff_ne.mpr h
      simp [intentRun, h200]
    · subst h; cases hs : (status == 200) <;> simp [intentRun, hs]

/-- C4, witness: concrete instantiations discharging each hypothesis, with
the classifier down. -/
theorem C4_witness :
    intentRun (.fail "timeout") = [sentinelIntent] ∧
    intentRun (.resp 500 [⟨some "a", none, 1/2⟩]) = [sentinelIntent] ∧
    intentRun (.resp 200 []) = [sentinelIntent] ∧
    intentRun (.resp 200 [⟨some "a", none, 1/2⟩, ⟨some "b", none, 3/4⟩]) ≠ [] ∧
    detectedOf env0 req0 = intentRun (env0.intentApi "q0") ∧
    (process_request env0 st0 req0 none).1 = .error detectedIntentValidationError :=
  ⟨(C4_intent_detection (.fail "timeout") env0 st0 req0 none).2.2.2.1 "timeout" rfl,
   (C4_intent_detection (.resp 500 [⟨some "a", none, 1/2⟩]) env0 st0 req0 none).2.2.2.2.1
     500 [⟨some "a", none, 1/2⟩] rfl (.inl (by decide)),
   (C4_intent_detection (.resp 200 []) env0 st0 req0 none).2.2.2.2.1
     200 [] rfl (.inr rfl),
   (C4_intent_detection (.resp 200 [⟨some "a", none, 1/2⟩, ⟨some "b", none, 3/4⟩])
     env0 st0 req0 none).1,
   (C4_intent_detection (.fail "x") env0 st0 req0 none).2.2.2.2.2.1,
   (C4_intent_detection (.fail "x") env0 st0 req0 none).2.2.2.2.2.2⟩

/-! ## Claim C6 — action recommender shape -/

/-- The UserPolicy recommendation entry of `ActionRecommenderTool.run`. -/
def recommendedUserPolicyCall (q : String) : RecTool :=
  ⟨.user_policy,
   [("policy_id",
       match searchPolicyId (pyLower q).toList with
       | some v => .s v
       | none => .null),
    ("query_type",
      .s (if coverageQueryType (pyLower q) then "coverage"
          else if proposerQueryType (pyLower q) then "proposer"
          else "full")),
    ("product_name",
      if extract_policy_type q == "travel" || extract_policy_type q == "health" then
        .s (extract_policy_type q)
      else .null)]⟩

/-- The always-present VectorSearch recommendation entry. -/
def recommendedVectorSearchCall (q : String) : RecTool :=
  ⟨.vector_search, [("query", .s q), ("top_k", .n 3)]⟩

/-- Structural decomposition of `actionRecommenderRun` (definitional). -/
theorem actionRecommenderRun_eq (q : String) :
    actionRecommenderRun q =
      (if (searchPolicyId (pyLower q).toList).isSome || userQueryLikely q then
        [recommendedUserPolicyCall q]
      else []) ++ [recommendedVectorSearchCall q] := rfl

/-- C6.  For every query the recommender returns (without failing — the
body is total) a list ending in a VectorSearch call with parameters
`{query, top_k: 3}`, of length at most 2; everything before the last
element is a UserPolicy call, and a UserPolicy call is present exactly when
a policy id was extracted by the regex or the personal-reference keyword
heuristic fires. -/
theorem C6_action_recommender (q : String) :
    (actionRecommenderRun q).getLast? = some (recommendedVectorSearchCall q) ∧
    recommendedVectorSearchCall q =
      ⟨.vector_search, [("query", .s q), ("top_k", .n 3)]⟩ ∧
    (actionRecommenderRun q).length ≤ 2 ∧
    ((actionRecommenderRun q).dropLast.all
      (fun t => t.tool_type == .user_policy)) = true ∧
    ((∃ t ∈ actionRecommenderRun q, t.tool_type = .user_policy) ↔
      ((searchPolicyId (pyLower q).toList).isSome = true ∨ userQueryLikely q = true)) := by
  rw [actionRecommenderRun_eq]
  cases hcond : ((searchPolicyId (pyLower q).toList).isSome || userQueryLikely q) with
  | true =>
    rw [if_pos rfl]
    refine ⟨List.getLast?_concat _, rfl, by simp, ?_, ?_⟩
    · rw [List.dropLast_concat]; rfl
    · constructor
      · intro _; exact (Bool.or_eq_true _ _) ▸ hcond
      · intro _
        exact ⟨recommendedUserPolicyCall q, by simp, rfl⟩
  | false =>
    rw [if_neg (by simp)]
    refine ⟨List.getLast?_concat _, rfl, by simp, by simp, ?_⟩
    have hcond' : ¬((searchPolicyId (pyLower q).toList).isSome = true ∨
        userQueryLikely q = true) := by
      intro hor
      have htrue : ((searchPolicyId (pyLower q).toList).isSome ||
          userQueryLikely q) = true := (Bool.or_eq_true _ _) ▸ hor
      exact absurd (htrue.symm.trans hcond) (by decide)
    constructor
    · rintro ⟨t, ht, htt⟩
      simp only [List.nil_append, List.mem_singleton] at ht
      subst ht
      exact absurd htt (by simp [recommendedVectorSearchCall])
    · intro h1
      exact absurd h1 hcond'

/-! ## Claim C2 — policy-context fusion and sources -/

/-- C2, amended.  When the executed tool results contain a qualifying
UserPolicy response (no error, truthy payload), the rendered policy prose
is the context item at index 0 of the context list handed to generation,
and the synthetic `{User Policy, Personal Policy Details}` source appears
in the `sources` local the controller computes — as its *first* entry
whenever no context item already produced an identical `(name, type)` pair
(the code skips re-insertion instead of moving the existing entry to the
front).  That sources list is never returned to the caller: the response
construction raises the `detected_intent` ValidationError on every
request. -/
theorem C2_amended_policy_context (env : Env) (st : CState) (req : MCPRequest)
    (sid : Option Nat)
    (h : ∃ tr ∈ toolResultsOf env req, (qualifyPolicy tr).isSome) :
    (∃ tr ∈ toolResultsOf env req, ∃ pd, qualifyPolicy tr = some pd ∧
      (genArgsOf env req).context.head? = some (policyContextItem pd)) ∧
    userPolicySource ∈ sourcesOf env req ∧
    (userPolicySource ∉ extractSources (contextOf env req) →
      (sourcesOf env req).head? = some userPolicySource) ∧
    (process_request env st req sid).1 = .error detectedIntentValidationError := by
  obtain ⟨hflag, tr, htr, pd, hpd, hhead⟩ :=
    fuseTools_qual (toolResultsOf env req) (vectorSearchRun env req.user_query 3) false h
  refine ⟨⟨tr, htr, pd, hpd, hhead⟩, ?_, ?_, process_request_raises env st req sid⟩
  · show userPolicySource ∈ finalSources (contextOf env req) (upAddedOf env req)
    rw [show upAddedOf env req = true from hflag]
    simp only [finalSources, if_true]
    by_cases hc : (extractSources (contextOf env req)).contains userPolicySource
    · simp only [hc, if_true]
      exact List.elem_iff.mp hc
    · simp only [hc]
      exact List.mem_cons_self _ _
  · intro hnot
    show (finalSources (contextOf env req) (upAddedOf env req)).head? =
      some userPolicySource
    rw [show upAddedOf env req = true from hflag]
    simp only [finalSources, if_true]
    rw [if_neg (by simpa using hnot)]
    rfl

/-- A vector-index passage that already carries the synthetic source pair. -/
def advVectorItem : ContextItem :=
  ⟨some "User Policy", some "Personal Policy Details", "passage text"⟩

/-- A stored policy record with id `POL1` and product name `Travel Elite`. -/
def recC2 : PolicyData :=
  { policy_details := some [("policy_number", "POL1"), ("product_name", "Travel Elite")] }

/-- An environment whose vector index returns `advVectorItem` and whose
policy store holds `recC2`. -/
def envC2 : Env :=
  { vectorQuery := fun _ _ => .ok [advVectorItem],
    intentApi := fun _ => .fail "down",
    generate := fun _ => "ans",
    policyStore := [recC2] }

/-- An explicit UserPolicy tool call for `POL1`. -/
def reqC2 : MCPRequest :=
  ⟨"q", none, some [⟨.user_policy, [("policy_id", .s "POL1")]⟩]⟩

/-- C2, counterexample.  A qualifying UserPolicy result is present, yet the
claim's conclusion fails twice over: the first entry of the computed
`sources` local is the fused context item's own pair
`{User Policy: Travel Elite, User Policy Details}` — not the synthetic
`{User Policy, Personal Policy Details}`, because the vector passage
already supplied that exact pair and the code skips the front insertion —
and no sources list is *returned* at all, since `process_request` raises
the ValidationError at response construction.  The claim, as stated, is
false. -/
theorem C2_counterexample :
    (∃ tr ∈ toolResultsOf envC2 reqC2, (qualifyPolicy tr).isSome) ∧
    (sourcesOf envC2 reqC2).head? =
      some ⟨"User Policy: Travel Elite", "User Policy Details"⟩ ∧
    (⟨"User Policy: Travel Elite", "User Policy Details"⟩ : Source) ≠
      userPolicySource ∧
    (process_request envC2 st0 reqC2 none).1 = .error detectedIntentValidationError := by
  refine ⟨by decide, by rfl, by decide, by rfl⟩

/-! ## Claim C9 — unregistered tool types are silently skipped -/

theorem workingToolsOf_some (req : MCPRequest) (ts : List ToolCall) (h : ts ≠ []) :
    workingToolsOf { req with tools := some ts } = ts := by
  cases ts with
  | nil => exact absurd rfl h
  | cons a l => rfl

/-- C9.  Executing a ToolCall whose ToolType is not registered is a no-op:
it contributes no ToolResponse, raises nothing (the embedding is total),
and removing it from the working list leaves the executed results — and,
for a caller-supplied list, the whole request's outcome — unchanged.  (The
residual hypothesis `before ++ after ≠ []` only avoids the unrelated
recommender path that an empty caller list would trigger.) -/
theorem C9_unregistered_tool_noop (env : Env) (st : CState) (req : MCPRequest)
    (sid : Option Nat) (before after : List ToolCall) (tc : ToolCall)
    (hreg : registered tc.tool_type = false) :
    executeTools env (before ++ tc :: after) = executeTools env (before ++ after) ∧
    (before ++ after ≠ [] →
      process_request env st { req with tools := some (before ++ tc :: after) } sid =
        process_request env st { req with tools := some (before ++ after) } sid) := by
  have hexec : executeTools env (before ++ tc :: after) =
      executeTools env (before ++ after) := by
    rw [executeTools_append, executeTools_append]
    congr 1
    show executeTools env (tc :: after) = executeTools env after
    simp [executeTools, hreg]
  refine ⟨hexec, fun hne => ?_⟩
  have h1 : workingToolsOf { req with tools := some (before ++ tc :: after) } =
      before ++ tc :: after :=
    workingToolsOf_some req _ (by simp)
  have h2 : workingToolsOf { req with tools := some (before ++ after) } =
      before ++ after :=
    workingToolsOf_some req _ hne
  have hargs : responseArgsOf env { req with tools := some (before ++ tc :: after) } =
      responseArgsOf env { req with tools := some (before ++ after) } := by
    simp only [responseArgsOf, sourcesOf, genArgsOf, contextOf, upAddedOf,
      detectedOf, toolResultsOf, h1, h2, hexec]
  simp only [process_request, hargs]

/-- A ToolCall with the unregistered `faq_lookup` type. -/
def tcUnreg : ToolCall := ⟨.faq_lookup, []⟩

/-- A plain vector-search ToolCall. -/
def tcVS : ToolCall := ⟨.vector_search, [("query", .s "q0"), ("top_k", .n 3)]⟩

/-- C9, witness at a concrete registry-missing tool type. -/
theorem C9_witness :
    executeTools env0 ([] ++ tcUnreg :: [tcVS]) = executeTools env0 ([] ++ [tcVS]) ∧
    process_request env0 st0 { req0 with tools := some ([] ++ tcUnreg :: [tcVS]) } none =
      process_request env0 st0 { req0 with tools := some ([] ++ [tcVS]) } none :=
  ⟨(C9_unregistered_tool_noop env0 st0 req0 none [] [tcVS] tcUnreg rfl).1,
   (C9_unregistered_tool_noop env0 st0 req0 none [] [tcVS] tcUnreg rfl).2 (by simp)⟩

/-! ## Claim C10 — the HTTP reply's `session_id` (a reply that never exists) -/

/-- Well-formedness of the uuid-counter model: every stored key is below
the counter (a fresh uuid collides with no stored id). -/
def sessionsWF (st : CState) : Prop := ∀ kv ∈ st.sessions, kv.1 < st.nextId

theorem find_skip (l rest : List (Nat × MCPSession)) (k : Nat)
    (h : ∀ kv ∈ l, kv.1 ≠ k) :
    (l ++ rest).find? (fun kv => kv.1 == k) = rest.find? (fun kv => kv.1 == k) := by
  rw [List.find?_append]
  have hnone : l.find? (fun kv => kv.1 == k) = none :=
    List.find?_eq_none.mpr (fun kv hkv => by simpa using h kv hkv)
  simp [hnone]

/-- The turn-append function applied by `appendTurns`. -/
def turnAppend (q a : String) : MCPSession → MCPSession :=
  fun s => { s with history := s.history ++ [⟨"user", q⟩, ⟨"assistant", a⟩] }

theorem appendTurns_sessions (st : CState) (sid : Nat) (q a : String) :
    (appendTurns st sid q a).sessions =
      st.sessions.map
        (fun kv => if kv.1 == sid then (kv.1, turnAppend q a kv.2) else kv) := rfl

theorem keys_preserved (l : List (Nat × MCPSession)) (sid : Nat) (k : Nat)
    (h : ∀ kv ∈ l, kv.1 ≠ k) :
    ∀ kv ∈ l.map (fun kv => if kv.1 == sid then (kv.1, turnAppend q a kv.2) else kv),
      kv.1 ≠ k := by
  rw [List.forall_mem_map]
  intro j hj
  by_cases hs : (j.1 == sid) = true
  · simpa [hs] using h j hj
  · simpa [hs] using h j hj


theorem lookupSession_appendTurns_ne (st : CState) (sid k : Nat) (q a : String)
    (h : k ≠ sid) :
    lookupSession (appendTurns st sid q a) k = lookupSession st k := by
  simp only [lookupSession, appendTurns, updateSession]
  induction st.sessions with
  | nil => rfl
  | cons kv rest ih =>
    by_cases hk : (kv.1 == k) = true
    · have hsid : (kv.1 == sid) = false := by
        have hkk : kv.1 = k := by simpa using hk
        simp [hkk, h]
      simp [List.find?, hsid, hk]
    · by_cases hsid : (kv.1 == sid) = true
      · simp only [List.map_cons, List.find?, hsid, if_true, hk, if_false]
        simpa [List.find?, hk] using ih
      · simp only [List.map_cons, List.find?, hsid, if_false, hk]
        simpa [List.find?, hk] using ih

theorem lookupSession_appendTurns_self (st : CState) (sid : Nat) (q a : String) :
    lookupSession (appendTurns st sid q a) sid =
      (lookupSession st sid).map (turnAppend q a) := by
  simp only [lookupSession, appendTurns, updateSession]
  induction st.sessions with
  | nil => rfl
  | cons kv rest ih =>
    by_cases hk : (kv.1 == sid) = true
    · simp [List.find?, hk, turnAppend]
    · simp only [List.map_cons, List.find?, hk, if_false]
      simpa [List.find?, hk] using ih

theorem lookupSession_create_new (st : CState) (hwf : sessionsWF st) :
    lookupSession (create_session st).2 st.nextId = some ⟨st.nextId, []⟩ := by
  simp only [lookupSession, create_session]
  rw [find_skip _ _ _ (fun kv hkv => Nat.ne_of_lt (hwf kv hkv))]
  simp [List.find?]

theorem lookupSession_create_old (st : CState) (k : Nat) (h : k ≠ st.nextId) :
    lookupSession (create_session st).2 k = lookupSession st k := by
  simp only [lookupSession, create_session]
  rw [List.find?_append]
  cases hfind : st.sessions.find? (fun kv => kv.1 == k) with
  | some v => simp [hfind]
  | none =>
    have hb : (st.nextId == k) = false := beq_eq_false_iff_ne.mpr (Ne.symm h)
    simp [hfind, List.find?, hb]

theorem sessionsWF_create (st : CState) (hwf : sessionsWF st) :
    sessionsWF (create_session st).2 := by
  intro kv hkv
  simp only [create_session] at hkv
  rcases List.mem_append.mp hkv with h | h
  · exact Nat.lt_succ_of_lt (hwf kv h)
  · simp only [List.mem_singleton] at h
    subst h
    exact Nat.lt_succ_self _

theorem sessionsWF_appendTurns (st : CState) (sid : Nat) (q a : String)
    (hwf : sessionsWF st) : sessionsWF (appendTurns st sid q a) := by
  intro kv hkv
  simp only [appendTurns, updateSession] at hkv
  rcases List.mem_map.mp hkv with ⟨j, hj, rfl⟩
  by_cases hs : (j.1 == sid) = true
  · simpa [hs] using hwf j hj
  · simpa [hs] using hwf j hj

/-- C10, counterexample.  A request with no `session_id` and a non-empty
question produces no HTTP response at all: `process_request` raises the
`detected_intent` ValidationError at `MCPResponse(...)`, the endpoint's
catch-all converts it to HTTP 500, and the second session creation of
api.py:85 never runs — the final state holds exactly one new session (the
one carrying the appended turns) and `nextId` advanced by one, not two.
So the claim's described response `session_id` does not exist.  The claim,
as stated, is false. -/
theorem C10_counterexample :
    mcp_query env0 st0 ⟨"hi", some [], none, none⟩ =
      (.httpError 500 ("Error processing query: " ++ detectedIntentValidationError),
       ⟨1, [(0, ⟨0, [⟨"user", "hi"⟩, ⟨"assistant", "answer0"⟩]⟩)]⟩) ∧
    (∀ r st', mcp_query env0 st0 ⟨"hi", some [], none, none⟩ ≠ (.ok r, st')) := by
  have heq : mcp_query env0 st0 ⟨"hi", some [], none, none⟩ =
      (.httpError 500 ("Error processing query: " ++ detectedIntentValidationError),
       ⟨1, [(0, ⟨0, [⟨"user", "hi"⟩, ⟨"assistant", "answer0"⟩]⟩)]⟩) := by rfl
  exact ⟨heq, fun r st' h => by rw [heq] at h; simp at h⟩

/-- C10, amended.  No successful HTTP reply ever carries a `session_id`:
on every request with a non-empty question the controller raises the
`detected_intent` ValidationError after its side effects complete, and the
endpoint answers HTTP 500.  The request's turns were still appended to the
session resolved before the raise — freshly minted when the supplied id was
absent or unknown — but its id is never reported, and the second session
creation of api.py:85 is dead code: `nextId` advances by exactly one and no
session exists under `st.nextId + 1` afterwards.  (`sessionsWF` and
`s ≠ st.nextId` model uuid freshness in the counter model.) -/
theorem C10_amended_always_500 (env : Env) (st : CState) (req : MCPQueryRequest)
    (hq : (pyStrip req.question).isEmpty = false) (hwf : sessionsWF st) :
    (req.session_id = none →
      ∃ st', mcp_query env st req =
          (.httpError 500 ("Error processing query: " ++ detectedIntentValidationError),
           st') ∧
        st'.nextId = st.nextId + 1 ∧
        lookupSession st' (st.nextId + 1) = none ∧
        ∃ a, (lookupSession st' st.nextId).map (·.history) =
          some [⟨"user", req.question⟩, ⟨"assistant", a⟩]) ∧
    (∀ s, req.session_id = some s → lookupSession st s = none → s ≠ st.nextId →
      ∃ st', mcp_query env st req =
          (.httpError 500 ("Error processing query: " ++ detectedIntentValidationError),
           st') ∧
        st'.nextId = st.nextId + 1 ∧
        lookupSession st' s = none ∧
        ∃ a, (lookupSession st' st.nextId).map (·.history) =
          some [⟨"user", req.question⟩, ⟨"assistant", a⟩]) := by
  obtain ⟨q, ch, sid?, tools⟩ := req
  simp only at hq ⊢
  have hq' : ¬((pyStrip q).isEmpty = true) := by simp [hq]
  have hnotfound : ∀ k, k ≠ st.nextId → (∀ kv ∈ st.sessions, kv.1 ≠ k) →
      lookupSession st k = none := by
    intro k _ hk
    simp only [lookupSession]
    rw [List.find?_eq_none.mpr (fun kv hkv => by simpa using hk kv hkv)]
    rfl
  constructor
  · rintro rfl
    let mreq : MCPRequest := { user_query := q, history := ch, tools := tools }
    let ans := (responseArgsOf env mreq).response
    let st1 := appendTurns (create_session st).2 st.nextId q ans
    have hp : process_request env st mreq none =
        (.error detectedIntentValidationError, st1) := by
      refine Prod.ext (process_request_raises env st mreq none) ?_
      rfl
    have heq : mcp_query env st ⟨q, ch, none, tools⟩ =
        (.httpError 500 ("Error processing query: " ++ detectedIntentValidationError),
         st1) := by
      simp only [mcp_query]
      rw [if_neg hq', hp]
    have hwfA : sessionsWF (create_session st).2 := sessionsWF_create st hwf
    refine ⟨st1, heq, rfl, ?_, ans, ?_⟩
    · show lookupSession (appendTurns (create_session st).2 st.nextId q ans)
        (st.nextId + 1) = none
      rw [lookupSession_appendTurns_ne _ _ _ _ _ (by omega),
        lookupSession_create_old st (st.nextId + 1) (by omega)]
      exact hnotfound (st.nextId + 1) (by omega)
        (fun kv hkv => by have := hwf kv hkv; omega)
    · show (lookupSession (appendTurns (create_session st).2 st.nextId q ans)
        st.nextId).map (·.history) = some [⟨"user", q⟩, ⟨"assistant", ans⟩]
      rw [lookupSession_appendTurns_self, lookupSession_create_new st hwf]
      rfl
  · rintro s rfl hlook hne
    let mreq : MCPRequest := { user_query := q, history := ch, tools := tools }
    let ans := (responseArgsOf env mreq).response
    let st1 := appendTurns (create_session st).2 st.nextId q ans
    have hres : resolveSession st (some s) = create_session st := by
      simp only [resolveSession]
      rw [if_neg (by simp [hlook])]
    have hp : process_request env st mreq (some s) =
        (.error detectedIntentValidationError, st1) := by
      refine Prod.ext (process_request_raises env st mreq (some s)) ?_
      show (process_request env st mreq (some s)).2 = st1
      simp only [process_request, hres]
      rfl
    have heq : mcp_query env st ⟨q, ch, some s, tools⟩ =
        (.httpError 500 ("Error processing query: " ++ detectedIntentValidationError),
         st1) := by
      simp only [mcp_query]
      rw [if_neg hq', hp]
    refine ⟨st1, heq, rfl, ?_, ans, ?_⟩
    · show lookupSession (appendTurns (create_session st).2 st.nextId q ans) s = none
      rw [lookupSession_appendTurns_ne _ _ _ _ _ hne,
        lookupSession_create_old st s hne]
      exact hlook
    · show (lookupSession (appendTurns (create_session st).2 st.nextId q ans)
        st.nextId).map (·.history) = some [⟨"user", q⟩, ⟨"assistant", ans⟩]
      rw [lookupSession_appendTurns_self, lookupSession_create_new st hwf]
      rfl

/-- C10, witness for the amended theorem: both branches at concrete inputs
(empty store; absent id, then unknown id 5). -/
theorem C10_witness :
    (∃ st', mcp_query env0 st0 ⟨"hi", some [], none, none⟩ =
        (.httpError 500 ("Error processing query: " ++ detectedIntentValidationError),
         st') ∧
      st'.nextId = 1 ∧ lookupSession st' 1 = none ∧
      ∃ a, (lookupSession st' 0).map (·.history) =
        some [⟨"user", "hi"⟩, ⟨"assistant", a⟩]) ∧
    (∃ st', mcp_query env0 st0 ⟨"hi", some [], some 5, none⟩ =
        (.httpError 500 ("Error processing query: " ++ detectedIntentValidationError),
         st') ∧
      st'.nextId = 1 ∧ lookupSession st' 5 = none ∧
      ∃ a, (lookupSession st' 0).map (·.history) =
        some [⟨"user", "hi"⟩, ⟨"assistant", a⟩]) :=
  ⟨(C10_amended_always_500 env0 st0 ⟨"hi", some [], none, none⟩ (by decide)
      (fun kv hkv => absurd hkv (List.not_mem_nil kv))).1 rfl,
   (C10_amended_always_500 env0 st0 ⟨"hi", some [], some 5, none⟩ (by decide)
      (fun kv hkv => absurd hkv (List.not_mem_nil kv))).2 5 rfl rfl (by decide)⟩

/-- An environment with an ordinary vector passage and the `recC2` store. -/
def envW : Env :=
  { vectorQuery := fun _ _ => .ok [⟨some "travel.pdf", some "Policy Wording", "txt"⟩],
    intentApi := fun _ => .fail "down",
    generate := fun _ => "ans",
    policyStore := [recC2] }

/-- C2, witness for the amended theorem at a concrete qualifying request. -/
theorem C2_witness :
    (∃ tr ∈ toolResultsOf envW reqC2, ∃ pd, qualifyPolicy tr = some pd ∧
      (genArgsOf envW reqC2).context.head? = some (policyContextItem pd)) ∧
    userPolicySource ∈ sourcesOf envW reqC2 ∧
    (sourcesOf envW reqC2).head? = some userPolicySource ∧
    (process_request envW st0 reqC2 none).1 = .error detectedIntentValidationError :=
  ⟨(C2_amended_policy_context envW st0 reqC2 none (by decide)).1,
   (C2_amended_policy_context envW st0 reqC2 none (by decide)).2.1,
   (C2_amended_policy_context envW st0 reqC2 none (by decide)).2.2.1 (by decide),
   (C2_amended_policy_context envW st0 reqC2 none (by decide)).2.2.2⟩
